import Mathlib

/-!
Verification of the icefit health-metrics core.

Shallow embedding of the icefit fitness-backend core in Lean 4:

* `UserCalculationService` (src/services/user_service.py) — BMI, BMR, TDEE,
  calorie-goal formulas and `calculate_all_metrics`;
* the profile-update flow of `update_user_profile`
  (src/routes/auth/auth.py) — trigger detection, merge, recomputation,
  `$set` persistence;
* `UserService.prepare_user_for_db` / `hash_password`
  (src/services/user_service.py) — registration assembly with bcrypt;
* `GeminiMealPlanService.create_weekly_meal_plan_model`
  (src/services/gemini_service.py) — meal-plan assembly with per-day
  defaulting.

Python floats are modelled as exact rationals (ℚ); Python `round(x, 2)`
(ties-to-even) as `round2`; Python `int(x)` (truncation toward zero) as
`truncQ`; Python `None` as `Option.none`; a raised exception as an
`Option.none` result of the enclosing operation.
-/

/-- Truncation toward zero, the semantics of Python `int(x)` on a number:
floor for non-negative arguments, ceiling for negative ones. -/
def truncQ (q : ℚ) : ℤ :=
  if 0 ≤ q then ⌊q⌋ else ⌈q⌉

/-- Round-half-to-even, the semantics of Python `round(x)` on a number. -/
def roundTE (q : ℚ) : ℤ :=
  if q - ⌊q⌋ < 1/2 then ⌊q⌋
  else if 1/2 < q - ⌊q⌋ then ⌊q⌋ + 1
  else if ⌊q⌋ % 2 = 0 then ⌊q⌋ else ⌊q⌋ + 1

/-- Semantics of Python `round(x, 2)`: round `x * 100` half-to-even and
divide back by 100. -/
def round2 (q : ℚ) : ℚ :=
  (roundTE (q * 100) : ℚ) / 100

/-- Semantics of Python `str.lower`, used by `calculate_bmr`'s gender
test; character-list based so that concrete instances reduce. -/
def strToLower (s : String) : String :=
  ⟨s.data.map Char.toLower⟩

/-- Semantics of the Python expression `t or w` where `t` is an optional
number (`user_service.py:116`, `target_weight_kg or weight_kg`): `None`
and the number `0` are falsy, so both fall through to `w`. -/
def pyOrQ (t : Option ℚ) (w : ℚ) : ℚ :=
  match t with
  | none => w
  | some t => if t = 0 then w else t

/-- Semantics of the Python expression `l or []` where `l` is an optional
list (`user_service.py:167-170`): `None` and the empty list are falsy. -/
def pyOrList (l : Option (List String)) : List String :=
  match l with
  | none => []
  | some l => if l = [] then [] else l

namespace UserCalculationService

/-- Embeds `UserCalculationService.calculate_bmi` (user_service.py:9-13):
`round(weight_kg / (height_cm / 100) ** 2, 2)`.  There is no validation of
`height_cm`; `height_cm = 0` makes Python raise `ZeroDivisionError`
(modelled as `none`), while any non-zero height — negative included —
produces a finite rounded value. -/
def calculate_bmi (weight_kg height_cm : ℚ) : Option ℚ :=
  let height_m := height_cm / 100
  if height_m ^ 2 = 0 then none
  else some (round2 (weight_kg / height_m ^ 2))

/-- Embeds `UserCalculationService.get_bmi_status` (user_service.py:15-25). -/
def get_bmi_status (bmi : ℚ) : String :=
  if bmi < 18.5 then "underweight"
  else if 18.5 ≤ bmi ∧ bmi < 25 then "normal"
  else if 25 ≤ bmi ∧ bmi < 30 then "overweight"
  else "obese"

/-- Embeds `UserCalculationService.calculate_recommended_weight`
(user_service.py:27-40). -/
def calculate_recommended_weight (height_cm : ℚ) (bmi_status : String) : ℚ :=
  let height_m := height_cm / 100
  if bmi_status = "underweight" then round2 (20 * height_m ^ 2)
  else if bmi_status = "normal" then 0
  else round2 (24 * height_m ^ 2)

/-- Embeds `UserCalculationService.calculate_bmr` (user_service.py:42-50),
Mifflin-St Jeor; the branch test in the source is
`gender.lower() == 'male'`. -/
def calculate_bmr (weight_kg height_cm : ℚ) (age : ℤ) (gender : String) : ℚ :=
  if strToLower gender = "male" then
    round2 (10 * weight_kg + 6.25 * height_cm - 5 * age + 5)
  else
    round2 (10 * weight_kg + 6.25 * height_cm - 5 * age - 161)

/-- Embeds the activity-multiplier table of `calculate_tdee`
(user_service.py:55-63); `dict.get(activity_level, 1.2)` defaults any
unknown level to 1.2. -/
def activityMultiplier (activity_level : String) : ℚ :=
  if activity_level = "sedentary" then 1.2
  else if activity_level = "light" then 1.375
  else if activity_level = "moderate" then 1.55
  else if activity_level = "active" then 1.725
  else if activity_level = "very_active" then 1.9
  else 1.2

/-- Embeds `UserCalculationService.calculate_tdee` (user_service.py:52-64). -/
def calculate_tdee (bmr : ℚ) (activity_level : String) : ℚ :=
  round2 (bmr * activityMultiplier activity_level)

/-- Embeds `UserCalculationService.calculate_calorie_goal`
(user_service.py:66-80); the Python `int(...)` cast is truncation toward
zero. -/
def calculate_calorie_goal (tdee : ℚ) (goal : String)
    (target_weight_kg current_weight_kg : ℚ) : ℤ :=
  if goal = "lose_weight" then
    if current_weight_kg - target_weight_kg > 10 then truncQ (tdee - 750)
    else truncQ (tdee - 500)
  else if goal = "gain_weight" ∨ goal = "build_muscle" then
    truncQ (tdee + 400)
  else
    truncQ tdee

/-- Input-field record read by `calculate_all_metrics`
(user_service.py:86-101); both the attribute branch and the dict branch
read exactly these seven fields, with `target_weight_kg` optional. -/
structure MetricsInput where
  weight_kg : ℚ
  height_cm : ℚ
  age : ℤ
  gender : String
  activity_level : String
  goal : String
  target_weight_kg : Option ℚ
  deriving DecidableEq, Repr

/-- The six calculated fields returned by `calculate_all_metrics`
(user_service.py:119-126). -/
structure Metrics where
  bmi : ℚ
  bmi_status : String
  recommended_weight_change : ℚ
  bmr : ℚ
  tdee : ℚ
  recommended_daily_calories : ℤ
  deriving DecidableEq, Repr

/-- Embeds `UserCalculationService.calculate_all_metrics`
(user_service.py:82-126): bmi → bmi_status → recommended_weight →
recommended_weight_change → bmr → tdee → calorie goal, where the calorie
goal uses `target_weight_kg or weight_kg` (Python truthiness) as the
target.  The division-by-zero exception of `calculate_bmi` propagates as
`none`. -/
def calculate_all_metrics (u : MetricsInput) : Option Metrics :=
  match calculate_bmi u.weight_kg u.height_cm with
  | none => none
  | some bmi =>
    let bmi_status := get_bmi_status bmi
    let recommended_weight := calculate_recommended_weight u.height_cm bmi_status
    let recommended_weight_change :=
      if recommended_weight ≠ 0 then recommended_weight - u.weight_kg else 0
    let bmr := calculate_bmr u.weight_kg u.height_cm u.age u.gender
    let tdee := calculate_tdee bmr u.activity_level
    let target_weight := pyOrQ u.target_weight_kg u.weight_kg
    some
      { bmi := bmi
        bmi_status := bmi_status
        recommended_weight_change := round2 recommended_weight_change
        bmr := bmr
        tdee := tdee
        recommended_daily_calories :=
          calculate_calorie_goal tdee u.goal target_weight u.weight_kg }

end UserCalculationService

namespace ProfileUpdate

open UserCalculationService

/-- A stored user profile, as persisted by registration
(`prepare_user_for_db`, user_service.py:152-181) and mutated by
`update_user_profile` (auth.py:143-194).  Only the fields the update flow
and the metric computation can observe are modelled: the seven metric
inputs, the six calculated fields, `day_streak` (a representative
non-trigger key; it is absent from the registration document, hence
optional) and `updated_at` (time modelled as ℤ).  The remaining document
fields (names, email, …) are carried through the `$set` merge exactly
like `day_streak` and are observationally inert here. -/
structure Profile where
  weight_kg : ℚ
  height_cm : ℚ
  age : ℤ
  gender : String
  activity_level : String
  goal : String
  target_weight_kg : Option ℚ
  bmi : ℚ
  bmi_status : String
  recommended_weight_change : ℚ
  recommended_daily_calories : ℤ
  bmr : ℚ
  tdee : ℚ
  day_streak : Option ℤ
  updated_at : ℤ
  deriving DecidableEq, Repr

/-- A partial-update map (the `updates: dict` body of the PUT /profile
route, auth.py:145).  A field holds `some v` when the corresponding key is
present in the request map with value `v`, and `none` when the key is
absent.  The same key universe as `Profile` is modelled; further
non-trigger keys behave exactly like `day_streak`.  A key present with a
JSON `null` value is not modelled (it would crash the metric arithmetic
downstream and persist nothing). -/
structure UpdateMap where
  weight_kg : Option ℚ
  height_cm : Option ℚ
  age : Option ℤ
  gender : Option String
  activity_level : Option String
  goal : Option String
  target_weight_kg : Option ℚ
  bmi : Option ℚ
  bmi_status : Option String
  recommended_weight_change : Option ℚ
  recommended_daily_calories : Option ℤ
  bmr : Option ℚ
  tdee : Option ℚ
  day_streak : Option ℤ
  deriving DecidableEq, Repr

/-- The all-absent update map, base point for building concrete updates. -/
def emptyUpdate : UpdateMap :=
  ⟨none, none, none, none, none, none, none, none, none, none, none, none,
   none, none⟩

/-- Embeds the trigger test of `update_user_profile` (auth.py:158):
`any(key in updates for key in ['weight_kg', 'height_cm', 'age', 'gender',
'activity_level', 'goal'])`.  Pure key membership; `target_weight_kg` is
not in the list. -/
def hasTriggerKey (u : UpdateMap) : Bool :=
  u.weight_kg.isSome || u.height_cm.isSome || u.age.isSome ||
    u.gender.isSome || u.activity_level.isSome || u.goal.isSome

/-- The stored metric-input fields of a profile, as read by
`calculate_all_metrics` when `update_user_profile` passes it the merged
user dict. -/
def Profile.inputs (p : Profile) : MetricsInput :=
  { weight_kg := p.weight_kg
    height_cm := p.height_cm
    age := p.age
    gender := p.gender
    activity_level := p.activity_level
    goal := p.goal
    target_weight_kg := p.target_weight_kg }

/-- The stored calculated fields of a profile, bundled for comparison with
a fresh `calculate_all_metrics` result. -/
def Profile.metrics (p : Profile) : Metrics :=
  { bmi := p.bmi
    bmi_status := p.bmi_status
    recommended_weight_change := p.recommended_weight_change
    bmr := p.bmr
    tdee := p.tdee
    recommended_daily_calories := p.recommended_daily_calories }

/-- Embeds the merge loop of `update_user_profile` (auth.py:162-165):
`user_data[key] = value` for every update key already present in the
stored document, restricted to the seven fields `calculate_all_metrics`
reads.  Every stored profile contains all seven keys (registration writes
them all), so each present update value wins over the stored one. -/
def mergedInputs (p : Profile) (u : UpdateMap) : MetricsInput :=
  { weight_kg := u.weight_kg.getD p.weight_kg
    height_cm := u.height_cm.getD p.height_cm
    age := u.age.getD p.age
    gender := u.gender.getD p.gender
    activity_level := u.activity_level.getD p.activity_level
    goal := u.goal.getD p.goal
    target_weight_kg :=
      match u.target_weight_kg with
      | some t => some t
      | none => p.target_weight_kg }

/-- Embeds the persistence effect of `update_user_profile`
(auth.py:156-181) on the stored profile, with `now` the value of
`datetime.utcnow()`: if any trigger key is present, recompute all metrics
from the merged inputs and fold them into the `$set` map
(`updates.update(metrics)`, overwriting any client-supplied calculated
fields); always set `updated_at` to `now`; then apply the `$set` map
key-by-key to the stored document.  A `ZeroDivisionError` inside the
recomputation aborts the request before the database write (modelled as
`none`: nothing is persisted). -/
def update_user_profile (p : Profile) (u : UpdateMap) (now : ℤ) :
    Option Profile :=
  if hasTriggerKey u then
    match calculate_all_metrics (mergedInputs p u) with
    | none => none
    | some m =>
      some
        { weight_kg := u.weight_kg.getD p.weight_kg
          height_cm := u.height_cm.getD p.height_cm
          age := u.age.getD p.age
          gender := u.gender.getD p.gender
          activity_level := u.activity_level.getD p.activity_level
          goal := u.goal.getD p.goal
          target_weight_kg :=
            match u.target_weight_kg with
            | some t => some t
            | none => p.target_weight_kg
          bmi := m.bmi
          bmi_status := m.bmi_status
          recommended_weight_change := m.recommended_weight_change
          recommended_daily_calories := m.recommended_daily_calories
          bmr := m.bmr
          tdee := m.tdee
          day_streak :=
            match u.day_streak with
            | some d => some d
            | none => p.day_streak
          updated_at := now }
  else
    some
      { weight_kg := u.weight_kg.getD p.weight_kg
        height_cm := u.height_cm.getD p.height_cm
        age := u.age.getD p.age
        gender := u.gender.getD p.gender
        activity_level := u.activity_level.getD p.activity_level
        goal := u.goal.getD p.goal
        target_weight_kg :=
          match u.target_weight_kg with
          | some t => some t
          | none => p.target_weight_kg
        bmi := u.bmi.getD p.bmi
        bmi_status := u.bmi_status.getD p.bmi_status
        recommended_weight_change :=
          u.recommended_weight_change.getD p.recommended_weight_change
        recommended_daily_calories :=
          u.recommended_daily_calories.getD p.recommended_daily_calories
        bmr := u.bmr.getD p.bmr
        tdee := u.tdee.getD p.tdee
        day_streak :=
          match u.day_streak with
          | some d => some d
          | none => p.day_streak
        updated_at := now }

/-- A profile is consistent when its six stored calculated fields are
exactly what `calculate_all_metrics` computes from its seven stored input
fields. -/
def consistent (p : Profile) : Prop :=
  calculate_all_metrics p.inputs = some p.metrics

instance (p : Profile) : Decidable (consistent p) := by
  unfold consistent; infer_instance

end ProfileUpdate

namespace Registration

open UserCalculationService

/-- A validated registration input (`UserRegisterModel`, models.py:21-110),
after its pydantic validators ran: `age` is derived from the birth date,
`target_weight_kg` was defaulted from the goal when absent, and the
timestamps are set.  Dates and datetimes are modelled as ℤ. -/
structure UserRegister where
  email : String
  username : String
  password : String
  first_name : String
  last_name : String
  date_of_birth : ℤ
  gender : String
  age : ℤ
  height_cm : ℚ
  weight_kg : ℚ
  goal : String
  target_weight_kg : Option ℚ
  target_date : Option ℤ
  activity_level : String
  medical_conditions : Option (List String)
  allergies : Option (List String)
  medications : Option (List String)
  dietary_restrictions : Option (List String)
  daily_calorie_goal : Option ℤ
  created_at : ℤ
  updated_at : ℤ
  deriving DecidableEq, Repr

/-- The user document assembled by `prepare_user_for_db`
(user_service.py:152-181). -/
structure UserDoc where
  email : String
  username : String
  password_hash : String
  first_name : String
  last_name : String
  date_of_birth : ℤ
  gender : String
  age : ℤ
  height_cm : ℚ
  weight_kg : ℚ
  goal : String
  target_weight_kg : Option ℚ
  target_date : Option ℤ
  activity_level : String
  medical_conditions : List String
  allergies : List String
  medications : List String
  dietary_restrictions : List String
  daily_calorie_goal : Option ℤ
  bmi : ℚ
  bmi_status : String
  recommended_weight_change : ℚ
  recommended_daily_calories : ℤ
  bmr : ℚ
  tdee : ℚ
  created_at : ℤ
  updated_at : ℤ
  is_active : Bool
  deriving DecidableEq, Repr

/-- Modelled from the spec: the password-hashing collaborator (the bcrypt
library, outside src/) is specified only as `hash(plaintext) →
opaque_hash`.  Its key-derivation digest is modelled as a concrete
deterministic mixing function of password and salt; only its determinism
matters to the development. -/
def bcryptDigest (password salt : String) : Nat :=
  (salt ++ password).data.foldl
    (fun a c => (a * 31 + c.toNat) % 1000000007) 7

/-- Modelled from the spec: `bcrypt.hashpw(password, salt)`.  Per the
bcrypt modular-crypt format the returned hash string embeds the salt it
was given as its prefix, followed by the digest; the function is
deterministic in (password, salt). -/
def bcrypt_hashpw (password salt : String) : String :=
  salt ++ toString (bcryptDigest password salt)

/-- Embeds `UserService.hash_password` (user_service.py:131-135):
`salt = bcrypt.gensalt(); bcrypt.hashpw(password, salt)`.  The salt is the
per-invocation output of the `gensalt` randomness source, made an
explicit argument. -/
def hash_password (password salt : String) : String :=
  bcrypt_hashpw password salt

/-- Embeds `UserService.prepare_user_for_db` (user_service.py:142-183):
compute all metrics, hash the password with a fresh salt, assemble the
document.  The `ZeroDivisionError` path of the metric computation is
modelled as `none`. -/
def prepare_user_for_db (u : UserRegister) (salt : String) : Option UserDoc :=
  match calculate_all_metrics
      { weight_kg := u.weight_kg
        height_cm := u.height_cm
        age := u.age
        gender := u.gender
        activity_level := u.activity_level
        goal := u.goal
        target_weight_kg := u.target_weight_kg } with
  | none => none
  | some m =>
    some
      { email := u.email
        username := u.username
        password_hash := hash_password u.password salt
        first_name := u.first_name
        last_name := u.last_name
        date_of_birth := u.date_of_birth
        gender := u.gender
        age := u.age
        height_cm := u.height_cm
        weight_kg := u.weight_kg
        goal := u.goal
        target_weight_kg := u.target_weight_kg
        target_date := u.target_date
        activity_level := u.activity_level
        medical_conditions := pyOrList u.medical_conditions
        allergies := pyOrList u.allergies
        medications := pyOrList u.medications
        dietary_restrictions := pyOrList u.dietary_restrictions
        daily_calorie_goal := u.daily_calorie_goal
        bmi := m.bmi
        bmi_status := m.bmi_status
        recommended_weight_change := m.recommended_weight_change
        recommended_daily_calories := m.recommended_daily_calories
        bmr := m.bmr
        tdee := m.tdee
        created_at := u.created_at
        updated_at := u.updated_at
        is_active := true }

/-- A user document with its password hash blanked, for comparing the
salt-independent part of two assembled documents. -/
def eraseHash (d : UserDoc) : UserDoc :=
  { d with password_hash := "" }

end Registration

namespace MealPlan

/-- Days of the week, the seven fixed keys iterated by
`create_weekly_meal_plan_model` (gemini_service.py:153). -/
inductive Day where
  | monday | tuesday | wednesday | thursday | friday | saturday | sunday
  deriving DecidableEq, Repr

/-- Embeds the `MealItem` pydantic model (meal_models.py:7-17), as a
validated meal entry. -/
structure MealItem where
  name : String
  calories : ℤ
  protein : ℚ
  carbs : ℚ
  fat : ℚ
  fiber : Option ℚ
  description : Option String
  preparation_time : Option ℤ
  ingredients : List String
  instructions : Option String
  deriving DecidableEq, Repr

/-- Embeds the `DayMealPlan` pydantic model (meal_models.py:19-27). -/
structure DayMealPlan where
  breakfast : List MealItem
  lunch : List MealItem
  dinner : List MealItem
  snacks : List MealItem
  total_calories : ℤ
  total_protein : ℚ
  total_carbs : ℚ
  total_fat : ℚ
  deriving DecidableEq, Repr

/-- One day's entry of the parsed AI payload: each of the four meal slots
and four totals may be absent.  Meal entries are taken as already
shape-valid (`MealItem(**meal)` validation errors are outside the claims
considered here). -/
structure RawDayData where
  breakfast : Option (List MealItem)
  lunch : Option (List MealItem)
  dinner : Option (List MealItem)
  snacks : Option (List MealItem)
  total_calories : Option ℤ
  total_protein : Option ℚ
  total_carbs : Option ℚ
  total_fat : Option ℚ
  deriving DecidableEq, Repr

/-- The all-absent raw day entry, the `{}` default of
`meal_plan_data.get(day_name, {})` (gemini_service.py:154). -/
def emptyRawDay : RawDayData :=
  ⟨none, none, none, none, none, none, none, none⟩

/-- The parsed AI payload keyed by day name: each of the seven fixed day
keys may be absent. -/
structure RawMealPlanData where
  monday : Option RawDayData
  tuesday : Option RawDayData
  wednesday : Option RawDayData
  thursday : Option RawDayData
  friday : Option RawDayData
  saturday : Option RawDayData
  sunday : Option RawDayData
  deriving DecidableEq, Repr

/-- Looks up one day key in the parsed payload. -/
def RawMealPlanData.getDay (d : RawMealPlanData) : Day → Option RawDayData
  | .monday => d.monday
  | .tuesday => d.tuesday
  | .wednesday => d.wednesday
  | .thursday => d.thursday
  | .friday => d.friday
  | .saturday => d.saturday
  | .sunday => d.sunday

/-- Embeds the `WeeklyMealPlan` pydantic model (meal_models.py:29-46),
restricted to the fields `create_weekly_meal_plan_model` sets explicitly. -/
structure WeeklyMealPlan where
  user_id : String
  week_start_date : ℤ
  monday : DayMealPlan
  tuesday : DayMealPlan
  wednesday : DayMealPlan
  thursday : DayMealPlan
  friday : DayMealPlan
  saturday : DayMealPlan
  sunday : DayMealPlan
  deriving DecidableEq, Repr

/-- Looks up one day-plan of an assembled weekly plan. -/
def WeeklyMealPlan.getDay (w : WeeklyMealPlan) : Day → DayMealPlan
  | .monday => w.monday
  | .tuesday => w.tuesday
  | .wednesday => w.wednesday
  | .thursday => w.thursday
  | .friday => w.friday
  | .saturday => w.saturday
  | .sunday => w.sunday

/-- Embeds the per-day assembly loop body (gemini_service.py:154-171):
`day_data = meal_plan_data.get(day_name, {})`, each slot
`day_data.get(slot, [])`, each total `day_data.get(total, 0)`. -/
def buildDayPlan (raw : Option RawDayData) : DayMealPlan :=
  let day_data := raw.getD emptyRawDay
  { breakfast := day_data.breakfast.getD []
    lunch := day_data.lunch.getD []
    dinner := day_data.dinner.getD []
    snacks := day_data.snacks.getD []
    total_calories := day_data.total_calories.getD 0
    total_protein := day_data.total_protein.getD 0
    total_carbs := day_data.total_carbs.getD 0
    total_fat := day_data.total_fat.getD 0 }

/-- Python `date.weekday()` on a proleptic-Gregorian ordinal (Monday of
ordinal 1): days since the most recent Monday. -/
def daysSinceMonday (today : ℤ) : ℤ :=
  (today - 1) % 7

/-- Embeds `GeminiMealPlanService.create_weekly_meal_plan_model`
(gemini_service.py:141-180), with `today` (the value of `date.today()` as
an ordinal) made an explicit argument: week start is the most recent
Monday, and each of the seven days is assembled with the per-day and
per-field defaults of `buildDayPlan`. -/
def create_weekly_meal_plan_model (user_id : String)
    (meal_plan_data : RawMealPlanData) (today : ℤ) : WeeklyMealPlan :=
  { user_id := user_id
    week_start_date := today - daysSinceMonday today
    monday := buildDayPlan meal_plan_data.monday
    tuesday := buildDayPlan meal_plan_data.tuesday
    wednesday := buildDayPlan meal_plan_data.wednesday
    thursday := buildDayPlan meal_plan_data.thursday
    friday := buildDayPlan meal_plan_data.friday
    saturday := buildDayPlan meal_plan_data.saturday
    sunday := buildDayPlan meal_plan_data.sunday }

/-- The all-empty day-plan: four empty slots, four zero totals. -/
def emptyDayPlan : DayMealPlan :=
  ⟨[], [], [], [], 0, 0, 0, 0⟩

/-- A parsed payload whose `friday` key is missing and whose other six
day keys are present. -/
def rawNoFriday : RawMealPlanData :=
  ⟨some emptyRawDay, some emptyRawDay, some emptyRawDay, some emptyRawDay,
   none, some emptyRawDay, some emptyRawDay⟩

end MealPlan

namespace ProfileUpdate

open UserCalculationService

/-- A concrete stored profile: inputs 90 kg, 175 cm, age 25, male,
moderate activity, goal lose_weight, target 85 kg, with the calculated
fields exactly as `calculate_all_metrics` derives them from those inputs. -/
def sampleProfile : Profile :=
  { weight_kg := 90
    height_cm := 175
    age := 25
    gender := "male"
    activity_level := "moderate"
    goal := "lose_weight"
    target_weight_kg := some 85
    bmi := 29.39
    bmi_status := "overweight"
    recommended_weight_change := -16.5
    recommended_daily_calories := 2404
    bmr := 1873.75
    tdee := 2904.31
    day_streak := none
    updated_at := 0 }

/-- The update map `{"target_weight_kg": 60}`. -/
def uTargetOnly : UpdateMap :=
  { emptyUpdate with target_weight_kg := some 60 }

/-- The profile persisted after applying `uTargetOnly` to `sampleProfile`
at time 1: the target weight changed to 60 kg, but the calculated fields
are the ones derived for target 85 kg. -/
def sampleProfileStale : Profile :=
  { sampleProfile with target_weight_kg := some 60, updated_at := 1 }

/-- The update map `{"bmi": 999}`: no trigger key, but a calculated field
written directly. -/
def uBmiDirect : UpdateMap :=
  { emptyUpdate with bmi := some 999 }

/-- The update map `{"day_streak": 5}`. -/
def uDayStreak : UpdateMap :=
  { emptyUpdate with day_streak := some 5 }

/-- The update map `{"weight_kg": 90}`, echoing `sampleProfile`'s stored
weight. -/
def uWeightEcho : UpdateMap :=
  { emptyUpdate with weight_kg := some 90 }

/-- The update map echoes the stored profile: at least one trigger key is
present, every present trigger key carries the value already stored, and
no other modelled key is present.  (Calculated-field keys would be
overwritten by the recomputation anyway.) -/
def triggerEcho (p : Profile) (u : UpdateMap) : Prop :=
  hasTriggerKey u = true ∧
  (u.weight_kg = none ∨ u.weight_kg = some p.weight_kg) ∧
  (u.height_cm = none ∨ u.height_cm = some p.height_cm) ∧
  (u.age = none ∨ u.age = some p.age) ∧
  (u.gender = none ∨ u.gender = some p.gender) ∧
  (u.activity_level = none ∨ u.activity_level = some p.activity_level) ∧
  (u.goal = none ∨ u.goal = some p.goal) ∧
  u.target_weight_kg = none ∧ u.day_streak = none

end ProfileUpdate

namespace Registration

/-- A concrete validated registration input. -/
def regSample : UserRegister :=
  { email := "a@b.c"
    username := "alice"
    password := "hunter2secret"
    first_name := "Ada"
    last_name := "Byron"
    date_of_birth := 700000
    gender := "male"
    age := 30
    height_cm := 200
    weight_kg := 100
    goal := "maintain_weight"
    target_weight_kg := some 100
    target_date := none
    activity_level := "sedentary"
    medical_conditions := none
    allergies := none
    medications := none
    dietary_restrictions := none
    daily_calorie_goal := none
    created_at := 100
    updated_at := 100 }

/-- A first concrete bcrypt salt. -/
def saltA : String := "$2b$12$AAAAAAAAAAAAAAAAAAAAAA"

/-- A second, different concrete bcrypt salt. -/
def saltB : String := "$2b$12$BBBBBBBBBBBBBBBBBBBBAB"

end Registration

section HelperLemmas

open UserCalculationService

lemma isSome_false_eq_none {α : Type} {o : Option α}
    (h : o.isSome = false) : o = none := by
  cases o with
  | none => rfl
  | some a => simp at h

lemma getD_of_none_or_eq {α : Type} {o : Option α} {x : α}
    (h : o = none ∨ o = some x) : o.getD x = x := by
  rcases h with h | h <;> simp [h]

lemma bmi_90_175 : calculate_bmi 90 175 = some 29.39 := by
  unfold calculate_bmi
  norm_num [round2, roundTE]

lemma status_2939 : get_bmi_status 29.39 = "overweight" := by
  unfold get_bmi_status
  norm_num

lemma recw_175_over : calculate_recommended_weight 175 "overweight" = 73.5 := by
  unfold calculate_recommended_weight
  rw [if_neg (by decide), if_neg (by decide)]
  norm_num [round2, roundTE]

lemma bmr_90_175 : calculate_bmr 90 175 25 "male" = 1873.75 := by
  unfold calculate_bmr
  rw [if_pos (by decide)]
  norm_num [round2, roundTE]

lemma tdee_1873 : calculate_tdee 1873.75 "moderate" = 2904.31 := by
  unfold calculate_tdee activityMultiplier
  rw [if_neg (by decide), if_neg (by decide), if_pos (by decide)]
  norm_num [round2, roundTE]

lemma round2_rwc_90 : round2 (73.5 - 90) = -16.5 := by
  norm_num [round2, roundTE]

lemma trunc_2404 : truncQ (2904.31 - 500) = 2404 := by
  norm_num [truncQ]

lemma trunc_2154 : truncQ (2904.31 - 750) = 2154 := by
  norm_num [truncQ]

/-- Unfolding of `calculate_all_metrics` once the BMI computation is
known to succeed. -/
lemma calculate_all_metrics_eq (u : MetricsInput) (b : ℚ)
    (hb : calculate_bmi u.weight_kg u.height_cm = some b) :
    calculate_all_metrics u =
      some
        { bmi := b
          bmi_status := get_bmi_status b
          recommended_weight_change :=
            round2
              (if calculate_recommended_weight u.height_cm
                    (get_bmi_status b) ≠ 0 then
                calculate_recommended_weight u.height_cm
                    (get_bmi_status b) - u.weight_kg
              else 0)
          bmr := calculate_bmr u.weight_kg u.height_cm u.age u.gender
          tdee :=
            calculate_tdee
              (calculate_bmr u.weight_kg u.height_cm u.age u.gender)
              u.activity_level
          recommended_daily_calories :=
            calculate_calorie_goal
              (calculate_tdee
                (calculate_bmr u.weight_kg u.height_cm u.age u.gender)
                u.activity_level)
              u.goal (pyOrQ u.target_weight_kg u.weight_kg) u.weight_kg } := by
  unfold calculate_all_metrics
  rw [hb]

lemma pyOrQ_85 : pyOrQ (some 85) 90 = 85 := by
  norm_num [pyOrQ]

lemma pyOrQ_60 : pyOrQ (some 60) 90 = 60 := by
  norm_num [pyOrQ]

lemma pyOrQ_0 : pyOrQ (some 0) 90 = 90 := by
  norm_num [pyOrQ]

lemma cg_2404_85 : calculate_calorie_goal 2904.31 "lose_weight" 85 90 = 2404 := by
  unfold calculate_calorie_goal
  rw [if_pos rfl, if_neg (by norm_num)]
  exact trunc_2404

lemma cg_2154_60 : calculate_calorie_goal 2904.31 "lose_weight" 60 90 = 2154 := by
  unfold calculate_calorie_goal
  rw [if_pos rfl, if_pos (by norm_num)]
  exact trunc_2154

lemma cg_2404_90 : calculate_calorie_goal 2904.31 "lose_weight" 90 90 = 2404 := by
  unfold calculate_calorie_goal
  rw [if_pos rfl, if_neg (by norm_num)]
  exact trunc_2404

lemma rwc_29_39 :
    round2 (if calculate_recommended_weight 175 (get_bmi_status 29.39) ≠ 0
      then calculate_recommended_weight 175 (get_bmi_status 29.39) - 90
      else 0) = -16.5 := by
  rw [status_2939, recw_175_over, if_pos (by norm_num)]
  exact round2_rwc_90

/-- Metric evaluation at the sample inputs with target 85 kg:
5 kg to lose, so the moderate 500-calorie deficit applies. -/
lemma metrics_sample_85 :
    calculate_all_metrics
      ⟨90, 175, 25, "male", "moderate", "lose_weight", some 85⟩ =
      some ⟨29.39, "overweight", -16.5, 1873.75, 2904.31, 2404⟩ := by
  rw [calculate_all_metrics_eq _ 29.39 bmi_90_175]
  rw [show
    (⟨90, 175, 25, "male", "moderate", "lose_weight", some 85⟩ :
      MetricsInput).target_weight_kg = some 85 from rfl]
  rw [rwc_29_39, status_2939, bmr_90_175, tdee_1873, pyOrQ_85, cg_2404_85]

/-- Metric evaluation at the sample inputs with target 60 kg:
30 kg to lose, so the aggressive 750-calorie deficit applies. -/
lemma metrics_sample_60 :
    calculate_all_metrics
      ⟨90, 175, 25, "male", "moderate", "lose_weight", some 60⟩ =
      some ⟨29.39, "overweight", -16.5, 1873.75, 2904.31, 2154⟩ := by
  rw [calculate_all_metrics_eq _ 29.39 bmi_90_175]
  rw [show
    (⟨90, 175, 25, "male", "moderate", "lose_weight", some 60⟩ :
      MetricsInput).target_weight_kg = some 60 from rfl]
  rw [rwc_29_39, status_2939, bmr_90_175, tdee_1873, pyOrQ_60, cg_2154_60]

/-- Metric evaluation at the sample inputs with a supplied target of 0 kg:
Python truthiness makes the current weight its own target, giving the
500-calorie branch. -/
lemma metrics_sample_0 :
    calculate_all_metrics
      ⟨90, 175, 25, "male", "moderate", "lose_weight", some 0⟩ =
      some ⟨29.39, "overweight", -16.5, 1873.75, 2904.31, 2404⟩ := by
  rw [calculate_all_metrics_eq _ 29.39 bmi_90_175]
  rw [show
    (⟨90, 175, 25, "male", "moderate", "lose_weight", some 0⟩ :
      MetricsInput).target_weight_kg = some 0 from rfl]
  rw [rwc_29_39, status_2939, bmr_90_175, tdee_1873, pyOrQ_0, cg_2404_90]

end HelperLemmas

section ClaimTheorems

open UserCalculationService

/-- C2: `calculate_calorie_goal` returns the truncation toward zero of
`tdee − 750` for goal lose_weight with more than 10 kg to lose, of
`tdee − 500` for lose_weight with at most 10 kg to lose, of `tdee + 400`
for gain_weight or build_muscle, and of `tdee` for every other goal; the
final two conjuncts characterise `truncQ` as truncation toward zero
(floor above, ceiling below). -/
theorem C2_calorie_goal_branches (tdee t c : ℚ) (goal : String) :
    (goal = "lose_weight" → c - t > 10 →
      calculate_calorie_goal tdee goal t c = truncQ (tdee - 750)) ∧
    (goal = "lose_weight" → c - t ≤ 10 →
      calculate_calorie_goal tdee goal t c = truncQ (tdee - 500)) ∧
    (goal = "gain_weight" ∨ goal = "build_muscle" →
      calculate_calorie_goal tdee goal t c = truncQ (tdee + 400)) ∧
    (goal ≠ "lose_weight" → goal ≠ "gain_weight" → goal ≠ "build_muscle" →
      calculate_calorie_goal tdee goal t c = truncQ tdee) ∧
    (∀ q : ℚ, 0 ≤ q → (truncQ q : ℚ) ≤ q ∧ q < (truncQ q : ℚ) + 1) ∧
    (∀ q : ℚ, q < 0 → q ≤ (truncQ q : ℚ) ∧ (truncQ q : ℚ) < q + 1) := by
  refine ⟨?_, ?_, ?_, ?_, ?_, ?_⟩
  · intro hg hgt
    subst hg
    unfold calculate_calorie_goal
    rw [if_pos rfl, if_pos hgt]
  · intro hg hle
    subst hg
    unfold calculate_calorie_goal
    rw [if_pos rfl, if_neg (not_lt.mpr hle)]
  · rintro (hg | hg) <;> subst hg <;>
      · unfold calculate_calorie_goal
        rw [if_neg (by decide), if_pos (by decide)]
  · intro h1 h2 h3
    unfold calculate_calorie_goal
    rw [if_neg h1, if_neg (by simp [h2, h3])]
  · intro q hq
    unfold truncQ
    rw [if_pos hq]
    exact ⟨Int.floor_le q, Int.lt_floor_add_one q⟩
  · intro q hq
    unfold truncQ
    rw [if_neg (not_le.mpr hq)]
    exact ⟨Int.le_ceil q, Int.ceil_lt_add_one q⟩

/-- Witness for C2 at the spec's own example: tdee 2594, lose_weight,
current 90, target 75 — 15 kg to lose, so 2594 − 750 = 1844. -/
theorem C2_calorie_goal_branches_witness :
    calculate_calorie_goal 2594 "lose_weight" 75 90 = 1844 := by
  have h := (C2_calorie_goal_branches 2594 75 90 "lose_weight").1 rfl
    (by norm_num)
  rw [h]
  norm_num [truncQ]

/-- C7: `calculate_bmr` uses the Mifflin-St Jeor male formula
`10·w + 6.25·h − 5·age + 5` exactly when the (case-normalised) gender is
male, and the female formula `10·w + 6.25·h − 5·age − 161` for every
other gender value; in particular gender "other" gives exactly the
gender "female" result. -/
theorem C7_bmr_gender_formulas (w h : ℚ) (a : ℤ) (g : String) :
    (strToLower g = "male" →
      calculate_bmr w h a g = round2 (10 * w + 6.25 * h - 5 * a + 5)) ∧
    (strToLower g ≠ "male" →
      calculate_bmr w h a g = round2 (10 * w + 6.25 * h - 5 * a - 161)) ∧
    calculate_bmr w h a "other" = calculate_bmr w h a "female" := by
  refine ⟨?_, ?_, ?_⟩
  · intro hg
    unfold calculate_bmr
    rw [if_pos hg]
  · intro hg
    unfold calculate_bmr
    rw [if_neg hg]
  · unfold calculate_bmr
    rw [if_neg (by decide), if_neg (by decide)]

/-- Witness for C7 at the spec's example: w 70, h 175, age 25, female →
1507.75, and gender other agrees exactly. -/
theorem C7_bmr_gender_formulas_witness :
    calculate_bmr 70 175 25 "female" = 1507.75 ∧
    calculate_bmr 70 175 25 "other" = calculate_bmr 70 175 25 "female" := by
  constructor
  · have h := (C7_bmr_gender_formulas 70 175 25 "female").2.1 (by decide)
    rw [h]
    norm_num [round2, roundTE]
  · exact (C7_bmr_gender_formulas 70 175 25 "other").2.2

/-- Counterexample to C3: at the non-positive height −175 cm the bmi
operation does not fail at all — it returns the finite value 22.86
(= round(70 / (−1.75)², 2)) instead of an InvalidInput failure. -/
theorem C3_bmi_counterexample :
    (-175 : ℚ) ≤ 0 ∧ calculate_bmi 70 (-175) = some (1143 / 50) := by
  constructor
  · norm_num
  · unfold calculate_bmi
    rw [if_neg (by norm_num)]
    norm_num [round2, roundTE]

/-- C3 amended: `calculate_bmi` fails only at height exactly 0 (an
uncaught division-by-zero, not a dedicated InvalidInput signal); for
every non-zero height — negative heights included — it returns
`round(weight / (height/100)², 2)` as a finite value. -/
theorem C3_bmi_amended (w h : ℚ) :
    (h = 0 → calculate_bmi w h = none) ∧
    (h ≠ 0 → calculate_bmi w h = some (round2 (w / (h / 100) ^ 2))) := by
  constructor
  · intro h0
    subst h0
    unfold calculate_bmi
    rw [if_pos (by norm_num)]
  · intro hne
    unfold calculate_bmi
    rw [if_neg (pow_ne_zero 2 (div_ne_zero hne (by norm_num)))]

/-- Witness for C3 amended: height 0 fails; height 175 yields the
rounded BMI 29.39 for weight 90. -/
theorem C3_bmi_amended_witness :
    calculate_bmi 70 0 = none ∧ calculate_bmi 90 175 = some 29.39 := by
  constructor
  · exact (C3_bmi_amended 70 0).1 rfl
  · have h := (C3_bmi_amended 90 175).2 (by norm_num)
    rw [h]
    norm_num [round2, roundTE]

/-- C10: `calculate_calorie_goal` imposes no lower bound in the
lose_weight branches — the result is exactly the truncation of
`tdee − 750` (resp. `tdee − 500`) even when that is negative, as at
tdee = 400 with 20 kg to lose, where the recommended daily calories are
−350. -/
theorem C10_calorie_goal_no_lower_bound :
    (∀ tdee t c : ℚ, c - t > 10 →
      calculate_calorie_goal tdee "lose_weight" t c = truncQ (tdee - 750)) ∧
    (∀ tdee t c : ℚ, c - t ≤ 10 →
      calculate_calorie_goal tdee "lose_weight" t c = truncQ (tdee - 500)) ∧
    ((0 : ℚ) < 400 ∧
      calculate_calorie_goal 400 "lose_weight" 60 80 = -350 ∧
      calculate_calorie_goal 400 "lose_weight" 60 80 < 0) := by
  refine ⟨?_, ?_, by norm_num, ?_, ?_⟩
  · intro tdee t c hgt
    unfold calculate_calorie_goal
    rw [if_pos rfl, if_pos hgt]
  · intro tdee t c hle
    unfold calculate_calorie_goal
    rw [if_pos rfl, if_neg (not_lt.mpr hle)]
  · unfold calculate_calorie_goal
    rw [if_pos rfl, if_pos (by norm_num)]
    unfold truncQ
    rw [if_neg (by norm_num)]
    rw [show ((400 : ℚ) - 750) = ((-350 : ℤ) : ℚ) by norm_num,
      Int.ceil_intCast]
  · unfold calculate_calorie_goal
    rw [if_pos rfl, if_pos (by norm_num)]
    unfold truncQ
    rw [if_neg (by norm_num)]
    rw [show ((400 : ℚ) - 750) = ((-350 : ℤ) : ℚ) by norm_num,
      Int.ceil_intCast]
    norm_num

/-- Witness for C10: the universally quantified aggressive-deficit branch
applied at tdee 400, target 60, current 80. -/
theorem C10_calorie_goal_no_lower_bound_witness :
    calculate_calorie_goal 400 "lose_weight" 60 80 = truncQ (400 - 750) :=
  C10_calorie_goal_no_lower_bound.1 400 60 80 (by norm_num)

end ClaimTheorems

section MealPlanTheorems

open MealPlan

/-- C8: for every parsed meal-plan payload and every day key absent from
it, the assembly still produces a weekly plan (the assembler is total)
whose day-plan for that day has all four meal slots empty and all four
daily totals zero. -/
theorem C8_missing_day_defaults (uid : String) (data : RawMealPlanData)
    (today : ℤ) (d : Day) (hd : data.getDay d = none) :
    ((create_weekly_meal_plan_model uid data today).getDay d).breakfast
        = [] ∧
    ((create_weekly_meal_plan_model uid data today).getDay d).lunch = [] ∧
    ((create_weekly_meal_plan_model uid data today).getDay d).dinner = [] ∧
    ((create_weekly_meal_plan_model uid data today).getDay d).snacks = [] ∧
    ((create_weekly_meal_plan_model uid data today).getDay d).total_calories
        = 0 ∧
    ((create_weekly_meal_plan_model uid data today).getDay d).total_protein
        = 0 ∧
    ((create_weekly_meal_plan_model uid data today).getDay d).total_carbs
        = 0 ∧
    ((create_weekly_meal_plan_model uid data today).getDay d).total_fat
        = 0 := by
  cases d <;>
    simp_all [RawMealPlanData.getDay, WeeklyMealPlan.getDay,
      create_weekly_meal_plan_model, buildDayPlan, emptyRawDay]

/-- Witness for C8 at a payload missing exactly the friday key:
friday's slots are empty and its totals zero. -/
theorem C8_missing_day_defaults_witness :
    ((create_weekly_meal_plan_model "user1" rawNoFriday 5).getDay
        Day.friday).breakfast = [] ∧
    ((create_weekly_meal_plan_model "user1" rawNoFriday 5).getDay
        Day.friday).total_calories = 0 := by
  have h := C8_missing_day_defaults "user1" rawNoFriday 5 Day.friday rfl
  exact ⟨h.1, h.2.2.2.2.1⟩

end MealPlanTheorems

section TargetSelectionTheorems

open UserCalculationService

/-- Counterexample to C4: at the sample inputs with the supplied target
value 0, `calculate_all_metrics` reports 2404 daily calories (tdee
2904.31 minus the moderate 500 deficit, because the current weight 90 was
used as its own target), whereas using the supplied target 0 would give
2154 (the aggressive 750 deficit, since 90 − 0 > 10). -/
theorem C4_supplied_target_counterexample :
    (⟨90, 175, 25, "male", "moderate", "lose_weight", some 0⟩ :
        MetricsInput).target_weight_kg = some 0 ∧
    (calculate_all_metrics
        ⟨90, 175, 25, "male", "moderate", "lose_weight", some 0⟩).map
        Metrics.tdee = some 2904.31 ∧
    (calculate_all_metrics
        ⟨90, 175, 25, "male", "moderate", "lose_weight", some 0⟩).map
        Metrics.recommended_daily_calories = some 2404 ∧
    calculate_calorie_goal 2904.31 "lose_weight" 0 90 = 2154 ∧
    (2404 : ℤ) ≠ 2154 := by
  refine ⟨rfl, ?_, ?_, ?_, by norm_num⟩
  · rw [metrics_sample_0]
    rfl
  · rw [metrics_sample_0]
    rfl
  · unfold calculate_calorie_goal
    rw [if_pos rfl, if_pos (by norm_num)]
    exact trunc_2154

/-- C4 amended: `calculate_all_metrics` passes the supplied
`target_weight_kg` to the calorie-goal computation only when it is
present and non-zero; when it is absent or exactly 0 (both falsy in
Python), the current weight is used as its own target. -/
theorem C4_target_selection_amended (u : MetricsInput) (m : Metrics)
    (hm : calculate_all_metrics u = some m) :
    (u.target_weight_kg = none ∨ u.target_weight_kg = some 0 →
      m.recommended_daily_calories =
        calculate_calorie_goal m.tdee u.goal u.weight_kg u.weight_kg) ∧
    (∀ t : ℚ, u.target_weight_kg = some t → t ≠ 0 →
      m.recommended_daily_calories =
        calculate_calorie_goal m.tdee u.goal t u.weight_kg) := by
  rcases hb : calculate_bmi u.weight_kg u.height_cm with _ | b
  · unfold calculate_all_metrics at hm
    rw [hb] at hm
    cases hm
  · rw [calculate_all_metrics_eq u b hb] at hm
    simp only [Option.some.injEq] at hm
    subst hm
    constructor
    · rintro (ht | ht) <;> simp [pyOrQ, ht]
    · intro t ht htne
      simp [pyOrQ, ht, htne]

/-- Witness for C4 amended, applied at the sample input with supplied
target 0: the calorie goal equals the one computed with the current
weight 90 as its own target. -/
theorem C4_target_selection_amended_witness :
    (⟨29.39, "overweight", -16.5, 1873.75, 2904.31, 2404⟩ :
        Metrics).recommended_daily_calories =
      calculate_calorie_goal 2904.31 "lose_weight" 90 90 :=
  (C4_target_selection_amended
    ⟨90, 175, 25, "male", "moderate", "lose_weight", some 0⟩
    ⟨29.39, "overweight", -16.5, 1873.75, 2904.31, 2404⟩
    metrics_sample_0).1 (Or.inr rfl)

end TargetSelectionTheorems

section RegistrationTheorems

open UserCalculationService Registration

/-- Metric evaluation at the concrete registration sample: BMI 25
(overweight bracket boundary), recommended weight 96, BMR 2105, TDEE
2526, maintain_weight calorie goal 2526. -/
lemma metrics_regSample :
    calculate_all_metrics
      ⟨100, 200, 30, "male", "sedentary", "maintain_weight", some 100⟩ =
      some ⟨25, "overweight", -4, 2105, 2526, 2526⟩ := by
  have hb : calculate_bmi 100 200 = some 25 := by
    unfold calculate_bmi
    rw [if_neg (by norm_num)]
    norm_num [round2, roundTE]
  have hst : get_bmi_status 25 = "overweight" := by
    unfold get_bmi_status
    norm_num
  have hrw : calculate_recommended_weight 200 "overweight" = 96 := by
    unfold calculate_recommended_weight
    rw [if_neg (by decide), if_neg (by decide)]
    norm_num [round2, roundTE]
  have hbmr : calculate_bmr 100 200 30 "male" = 2105 := by
    unfold calculate_bmr
    rw [if_pos (by decide)]
    norm_num [round2, roundTE]
  have htd : calculate_tdee 2105 "sedentary" = 2526 := by
    unfold calculate_tdee activityMultiplier
    rw [if_pos (by decide)]
    norm_num [round2, roundTE]
  rw [calculate_all_metrics_eq _ 25 hb]
  rw [show
    (⟨100, 200, 30, "male", "sedentary", "maintain_weight", some 100⟩ :
      MetricsInput).target_weight_kg = some 100 from rfl]
  rw [hst, hrw, hbmr, htd]
  rw [if_pos (by norm_num)]
  rw [show pyOrQ (some 100) 100 = 100 by norm_num [pyOrQ]]
  rw [show calculate_calorie_goal 2526 "maintain_weight" 100 100 = 2526 by
    unfold calculate_calorie_goal
    rw [if_neg (by decide), if_neg (by decide)]
    norm_num [truncQ]]
  rw [show round2 (96 - 100) = -4 by norm_num [round2, roundTE]]

/-- Counterexample to C9: the registration assembly is not a
deterministic function of its validated input — the same input assembled
under the two salts the bcrypt randomness source may produce yields two
different persistable records (they differ in `password_hash`). -/
theorem C9_registration_not_deterministic :
    saltA ≠ saltB ∧
    prepare_user_for_db regSample saltA ≠
      prepare_user_for_db regSample saltB := by
  constructor
  · decide
  · unfold prepare_user_for_db
    rw [show
      ({ weight_kg := regSample.weight_kg, height_cm := regSample.height_cm
         age := regSample.age, gender := regSample.gender
         activity_level := regSample.activity_level, goal := regSample.goal
         target_weight_kg := regSample.target_weight_kg } : MetricsInput) =
      ⟨100, 200, 30, "male", "sedentary", "maintain_weight", some 100⟩
      from rfl]
    rw [metrics_regSample]
    intro h
    simp only [Option.some.injEq, UserDoc.mk.injEq] at h
    have hp : hash_password regSample.password saltA =
        hash_password regSample.password saltB := h.2.2.1
    revert hp
    decide

/-- C9 amended: the registration assembly is deterministic in every field
except `password_hash` — for any two salts the bcrypt randomness source
produces, the two assembled records agree once the password hash is
blanked (and both fail together when the metric computation fails). -/
theorem C9_registration_deterministic_mod_salt (u : UserRegister)
    (s1 s2 : String) :
    (prepare_user_for_db u s1).map eraseHash =
      (prepare_user_for_db u s2).map eraseHash := by
  unfold prepare_user_for_db
  rcases calculate_all_metrics
      { weight_kg := u.weight_kg, height_cm := u.height_cm, age := u.age
        gender := u.gender, activity_level := u.activity_level
        goal := u.goal, target_weight_kg := u.target_weight_kg } with
    _ | m
  · rfl
  · rfl

end RegistrationTheorems

section ProfileUpdateTheorems

open UserCalculationService ProfileUpdate

lemma hasTriggerKey_false_elim (u : UpdateMap)
    (h : hasTriggerKey u = false) :
    u.weight_kg = none ∧ u.height_cm = none ∧ u.age = none ∧
    u.gender = none ∧ u.activity_level = none ∧ u.goal = none := by
  unfold hasTriggerKey at h
  simp only [Bool.or_eq_false_iff] at h
  obtain ⟨⟨⟨⟨⟨h1, h2⟩, h3⟩, h4⟩, h5⟩, h6⟩ := h
  exact ⟨isSome_false_eq_none h1, isSome_false_eq_none h2,
    isSome_false_eq_none h3, isSome_false_eq_none h4,
    isSome_false_eq_none h5, isSome_false_eq_none h6⟩

lemma sampleProfile_consistent : consistent sampleProfile := by
  unfold consistent
  rw [show sampleProfile.inputs =
    ⟨90, 175, 25, "male", "moderate", "lose_weight", some 85⟩ from rfl]
  rw [metrics_sample_85]
  rfl

/-- Counterexample to C1: `sampleProfile` is a consistent stored profile,
yet applying the update `{"target_weight_kg": 60}` persists a record
whose `recommended_daily_calories` (2404, derived for the old target 85)
is not what the stored inputs (target 60) derive (2154) — because
`target_weight_kg` is not in the trigger-key set, no recomputation
happens. -/
theorem C1_stale_target_counterexample :
    consistent sampleProfile ∧
    update_user_profile sampleProfile uTargetOnly 1 =
      some sampleProfileStale ∧
    ¬ consistent sampleProfileStale := by
  refine ⟨sampleProfile_consistent, rfl, ?_⟩
  intro h
  unfold consistent at h
  rw [show sampleProfileStale.inputs =
    ⟨90, 175, 25, "male", "moderate", "lose_weight", some 60⟩ from rfl] at h
  rw [metrics_sample_60] at h
  have h2 :
      (⟨29.39, "overweight", -16.5, 1873.75, 2904.31, 2154⟩ : Metrics) =
      ⟨29.39, "overweight", -16.5, 1873.75, 2904.31, 2404⟩ :=
    Option.some.inj h
  have h3 := congrArg Metrics.recommended_daily_calories h2
  norm_num at h3

/-- C1 amended: an update that touches a trigger key always persists a
consistent profile (the metrics are recomputed from exactly the merged
inputs that are persisted); an update that touches no trigger key
preserves consistency provided it also writes neither `target_weight_kg`
nor any calculated field directly.  (An update writing only
`target_weight_kg` breaks the invariant, as the counterexample shows.) -/
theorem C1_consistency_amended (p : Profile) (u : UpdateMap) (now : ℤ)
    (hp : consistent p)
    (hu : hasTriggerKey u = true ∨
      (u.target_weight_kg = none ∧ u.bmi = none ∧ u.bmi_status = none ∧
        u.recommended_weight_change = none ∧
        u.recommended_daily_calories = none ∧ u.bmr = none ∧
        u.tdee = none)) :
    ∀ p', update_user_profile p u now = some p' → consistent p' := by
  intro p' hp'
  by_cases htrig : hasTriggerKey u = true
  · unfold update_user_profile at hp'
    rw [if_pos htrig] at hp'
    rcases hm : calculate_all_metrics (mergedInputs p u) with _ | m
    · rw [hm] at hp'
      cases hp'
    · rw [hm] at hp'
      simp only [Option.some.injEq] at hp'
      subst hp'
      exact hm
  · have hfalse : hasTriggerKey u = false := by
      rwa [Bool.not_eq_true] at htrig
    rcases hu with h | ⟨ht, hb, hbs, hrwc, hrdc, hbmr, htd⟩
    · exact absurd h htrig
    obtain ⟨hw, hh, ha, hg, hal, hgl⟩ := hasTriggerKey_false_elim u hfalse
    unfold update_user_profile at hp'
    rw [if_neg htrig] at hp'
    simp only [Option.some.injEq] at hp'
    subst hp'
    unfold consistent Profile.inputs Profile.metrics
    simp only [hw, hh, ha, hg, hal, hgl, ht, hb, hbs, hrwc, hrdc, hbmr,
      htd, Option.getD_none]
    exact hp

/-- Witness for C1 amended: the echo update `{"weight_kg": 90}` on the
consistent `sampleProfile` persists a consistent profile. -/
theorem C1_consistency_amended_witness :
    consistent { sampleProfile with updated_at := 4 } := by
  have h :=
    C1_consistency_amended sampleProfile uWeightEcho 4
      sampleProfile_consistent (Or.inl rfl)
      { sampleProfile with updated_at := 4 }
  apply h
  unfold update_user_profile
  rw [if_pos (show hasTriggerKey uWeightEcho = true from rfl)]
  rw [show mergedInputs sampleProfile uWeightEcho =
    ⟨90, 175, 25, "male", "moderate", "lose_weight", some 85⟩ from rfl]
  rw [metrics_sample_85]
  rfl

/-- Counterexample to C5: the update `{"bmi": 999}` contains no trigger
key, yet the persisted profile's calculated field `bmi` changes from
29.39 to 999 — the route applies the raw `$set` map without any field
whitelist. -/
theorem C5_frame_counterexample :
    hasTriggerKey uBmiDirect = false ∧
    update_user_profile sampleProfile uBmiDirect 1 =
      some { sampleProfile with bmi := 999, updated_at := 1 } ∧
    sampleProfile.bmi ≠ 999 := by
  refine ⟨rfl, rfl, ?_⟩
  rw [show sampleProfile.bmi = 29.39 from rfl]
  norm_num

/-- C5 amended: an update containing no trigger key and no
calculated-field key leaves all six calculated fields unchanged in the
persisted record, while `updated_at` is refreshed to the current time
(and the write always succeeds — no recomputation can fail). -/
theorem C5_no_trigger_frame_amended (p : Profile) (u : UpdateMap)
    (now : ℤ) (htrig : hasTriggerKey u = false)
    (hcalc : u.bmi = none ∧ u.bmi_status = none ∧
      u.recommended_weight_change = none ∧
      u.recommended_daily_calories = none ∧ u.bmr = none ∧
      u.tdee = none) :
    (update_user_profile p u now).isSome = true ∧
    ∀ p', update_user_profile p u now = some p' →
      p'.bmi = p.bmi ∧ p'.bmi_status = p.bmi_status ∧
      p'.recommended_weight_change = p.recommended_weight_change ∧
      p'.recommended_daily_calories = p.recommended_daily_calories ∧
      p'.bmr = p.bmr ∧ p'.tdee = p.tdee ∧ p'.updated_at = now := by
  obtain ⟨hb, hbs, hrwc, hrdc, hbmr, htd⟩ := hcalc
  have hneg : ¬ hasTriggerKey u = true := by
    rw [htrig]
    exact Bool.false_ne_true
  constructor
  · unfold update_user_profile
    rw [if_neg hneg]
    rfl
  · intro p' hp'
    unfold update_user_profile at hp'
    rw [if_neg hneg] at hp'
    simp only [Option.some.injEq] at hp'
    subst hp'
    simp [hb, hbs, hrwc, hrdc, hbmr, htd]

/-- Witness for C5 amended at the update `{"day_streak": 5}` on
`sampleProfile`: calculated fields untouched, `updated_at` advanced to 7. -/
theorem C5_no_trigger_frame_amended_witness :
    ({ sampleProfile with day_streak := some 5, updated_at := 7 } :
        Profile).bmi = sampleProfile.bmi ∧
    ({ sampleProfile with day_streak := some 5, updated_at := 7 } :
        Profile).tdee = sampleProfile.tdee ∧
    ({ sampleProfile with day_streak := some 5, updated_at := 7 } :
        Profile).updated_at = 7 := by
  have h :=
    (C5_no_trigger_frame_amended sampleProfile uDayStreak 7 rfl
      ⟨rfl, rfl, rfl, rfl, rfl, rfl⟩).2
      { sampleProfile with day_streak := some 5, updated_at := 7 } rfl
  exact ⟨h.1, h.2.2.2.2.2.1, h.2.2.2.2.2.2⟩

/-- C6: an update whose keys are trigger keys carrying exactly the values
already stored (with no other modelled key present) still takes the
recomputation path — the trigger test is key membership, not value change
— and, on a consistent profile, persists a record identical to the stored
one except for the refreshed `updated_at` (recomputation is idempotent). -/
theorem C6_echo_update_idempotent (p : Profile) (u : UpdateMap) (now : ℤ)
    (hp : consistent p) (he : triggerEcho p u) :
    hasTriggerKey u = true ∧
    update_user_profile p u now = some { p with updated_at := now } := by
  obtain ⟨htrig, hw, hh, ha, hg, hal, hgl, htw, hds⟩ := he
  refine ⟨htrig, ?_⟩
  have hmerge : mergedInputs p u = p.inputs := by
    unfold mergedInputs Profile.inputs
    rw [getD_of_none_or_eq hw, getD_of_none_or_eq hh,
      getD_of_none_or_eq ha, getD_of_none_or_eq hg,
      getD_of_none_or_eq hal, getD_of_none_or_eq hgl, htw]
  have hp' : calculate_all_metrics p.inputs = some p.metrics := hp
  unfold update_user_profile
  rw [if_pos htrig, hmerge, hp']
  simp only [Option.some.injEq]
  rw [Profile.mk.injEq]
  exact ⟨getD_of_none_or_eq hw, getD_of_none_or_eq hh,
    getD_of_none_or_eq ha, getD_of_none_or_eq hg,
    getD_of_none_or_eq hal, getD_of_none_or_eq hgl,
    by rw [htw], rfl, rfl, rfl, rfl, rfl, rfl, by rw [hds], rfl⟩

/-- Witness for C6: the echo update `{"weight_kg": 90}` on the consistent
`sampleProfile` takes the recomputation path and persists exactly the
stored profile with `updated_at` set to 3. -/
theorem C6_echo_update_idempotent_witness :
    hasTriggerKey uWeightEcho = true ∧
    update_user_profile sampleProfile uWeightEcho 3 =
      some { sampleProfile with updated_at := 3 } :=
  C6_echo_update_idempotent sampleProfile uWeightEcho 3
    sampleProfile_consistent
    ⟨rfl, Or.inr rfl, Or.inl rfl, Or.inl rfl, Or.inl rfl, Or.inl rfl,
      Or.inl rfl, rfl, rfl⟩

end ProfileUpdateTheorems


